import Mathlib

/-!
Verification of the configuration script `SquareWithWell-Transient.py`.

The script builds a MODFLOW model description (grid, boundary conditions,
initial heads, time discretization, a pumping well), writes the input
files, runs the external solver once, and plots the results.  Below, the
parameter definitions and array constructions of the script are embedded
as Lean definitions (Python floats holding exactly representable values
become rationals; NumPy arrays become nested lists), and the script's
control flow is embedded as a trace of abstract steps parameterised by
the solver's reported success.
-/

namespace SquareWithWell

/-! ## Model domain and grid definition (script lines 24-41) -/

def Lx : ℚ := 1000
def Ly : ℚ := 1000
def ztop : ℚ := 100
def zbot : ℚ := 0
def nlay : ℕ := 1
def nrow : ℕ := 50
def ncol : ℕ := 100
def delr : ℚ := Lx / ncol
def delc : ℚ := Ly / nrow
def delv : ℚ := (ztop - zbot) / nlay

/-- Embedding of `np.linspace(start, stop, num)`: `num` evenly spaced
samples from `start` to `stop`, endpoints included. -/
def linspace (start stop : ℚ) (num : ℕ) : List ℚ :=
  (List.range num).map (fun i : ℕ => start + (stop - start) * (i : ℚ) / ((num : ℚ) - 1))

def x_coord : List ℚ := linspace (delr / 2) (Lx - delr / 2) ncol
def y_coord : List ℚ := linspace (Ly - delc / 2) (delc / 2) nrow
def botm : List ℚ := linspace ztop zbot (nlay + 1)

def hk : ℚ := 1
def vka : ℚ := 1
def sy : ℚ := 1 / 10
def ss : ℚ := 1 / 10000
def laytyp : ℤ := 1

/-! ## Boundary conditions and initial heads (script lines 45-49) -/

/-- Embedding of `np.ones((nl, nr, nc), dtype=np.int32)`. -/
def ones3 (nl nr nc : ℕ) : List (List (List ℤ)) :=
  List.replicate nl (List.replicate nr (List.replicate nc 1))

/-- Embedding of the slice assignment `a[:, :, cols] = v`. -/
def setCols (a : List (List (List ℤ))) (cols : List ℕ) (v : ℤ) :
    List (List (List ℤ)) :=
  a.map (fun plane => plane.map (fun row =>
    row.mapIdx (fun c x => if c ∈ cols then v else x)))

/-- `ibound = np.ones((nlay, nrow, ncol)); ibound[:, :, (0, ncol-1)] = -1`.
The Python source assigns the float `-1.0` into an int32 array, which
stores the integer `-1`. -/
def ibound : List (List (List ℤ)) :=
  setCols (ones3 nlay nrow ncol) [0, ncol - 1] (-1)

/-- `strt = 100. * np.ones((nlay, nrow, ncol), dtype=np.float32)`. -/
def strt : List (List (List ℚ)) :=
  List.replicate nlay (List.replicate nrow (List.replicate ncol 100))

/-- Element access `a[l][r][c]`, with an explicit out-of-range default. -/
def get3 {α : Type} (a : List (List (List α))) (l r c : ℕ) (d : α) : α :=
  ((a.getD l []).getD r []).getD c d

/-! ## Time step parameters (script lines 52-55) -/

def nper : ℕ := 2
def perlen : List ℤ := [100, 100]
def nstp : List ℤ := [100, 100]
def steady : List Bool := [false, false]

/-! ## Pumping well (script lines 66-71) -/

/-- Embedding of Python 3 `round` on an exact rational value:
round half to even. -/
def pyRound (q : ℚ) : ℤ :=
  let f : ℤ := Int.fdiv q.num q.den
  let r : ℚ := q - f
  if r < 1 / 2 then f
  else if (1 / 2 : ℚ) < r then f + 1
  else if f % 2 = 0 then f else f + 1

def r_well : ℤ := pyRound ((nrow : ℚ) / 2)
def c_well : ℤ := pyRound ((ncol : ℚ) / 2)

/-- `wel_sp1 = [[0, r_well, c_well, -1000]]`: layer, row, column, rate. -/
def wel_sp1 : List (List ℤ) := [[0, r_well, c_well, -1000]]

/-- `wel_sp2 = [[0, r_well, c_well, 0]]`. -/
def wel_sp2 : List (List ℤ) := [[0, r_well, c_well, 0]]

/-- The dict `{0: wel_sp1, 1: wel_sp2}` as an association list. -/
def stress_period_data : List (ℕ × List (List ℤ)) :=
  [(0, wel_sp1), (1, wel_sp2)]

/-! ## Control flow (script lines 21-124)

The script is one top-to-bottom run.  After the unconditional prefix
(parameter definition, model construction, input writing, the single
blocking `run_model` call), the only branch tests the solver's reported
success: on failure an exception is raised and execution halts, on
success the script reads the binary head file and plots.  `scriptTrace`
records the sequence of steps as a function of the solver outcome. -/

inductive Step : Type where
  | defineParams : Step
  | buildModel : Step
  | writeInput : Step
  | runModel : Step
  | raiseError : Step
  | readResults : Step
  | plotResults : Step
deriving DecidableEq

def scriptTrace (success : Bool) : List Step :=
  [Step.defineParams, Step.buildModel, Step.writeInput, Step.runModel] ++
    (if success then [Step.readResults, Step.plotResults] else [Step.raiseError])

end SquareWithWell

namespace SquareWithWell

/-! ## Helper lemmas -/

lemma r_well_eq : r_well = 25 := by norm_num [r_well, pyRound, nrow]

lemma c_well_eq : c_well = 50 := by norm_num [c_well, pyRound, ncol]

/-! ## Claims -/

/-- Claim C1: the well stress-period data has exactly the two keys 0 and 1,
each period's well list has exactly one entry, both entries address the same
cell, the period-one rate is the nonzero value -1000, and the period-two
rate is exactly 0. -/
theorem C1_pumping_rates :
    stress_period_data.map Prod.fst = [0, 1] ∧
    wel_sp1.length = 1 ∧ wel_sp2.length = 1 ∧
    stress_period_data.lookup 0 = some wel_sp1 ∧
    stress_period_data.lookup 1 = some wel_sp2 ∧
    (wel_sp1.headD []).getD 3 0 = -1000 ∧
    (wel_sp1.headD []).getD 3 0 ≠ 0 ∧
    (wel_sp2.headD []).getD 3 0 = 0 ∧
    (wel_sp1.headD []).take 3 = (wel_sp2.headD []).take 3 :=
  ⟨rfl, rfl, rfl, rfl, rfl, rfl, by decide, rfl, rfl⟩

set_option maxRecDepth 8000 in
/-- Claim C2: in `ibound`, every entry in column 0 and column `ncol - 1`
is -1, and every entry in every other column is 1. -/
theorem C2_ibound_constant_head_columns :
    ∀ l, l < nlay → ∀ r, r < nrow → ∀ c, c < ncol →
      get3 ibound l r c 0 = (if c = 0 ∨ c = ncol - 1 then -1 else 1) := by
  decide

/-- Witness for C2 at concrete cells: the first and last columns hold -1
and an interior column holds 1. -/
theorem C2_ibound_witness :
    get3 ibound 0 0 0 0 = -1 ∧ get3 ibound 0 0 50 0 = 1 ∧
    get3 ibound 0 0 99 0 = -1 :=
  ⟨by simpa [ncol] using
      C2_ibound_constant_head_columns 0 (by decide) 0 (by decide) 0 (by decide),
   by simpa [ncol] using
      C2_ibound_constant_head_columns 0 (by decide) 0 (by decide) 50 (by decide),
   by simpa [ncol] using
      C2_ibound_constant_head_columns 0 (by decide) 0 (by decide) 99 (by decide)⟩

/-- Claim C3: the grid cell sizes equal the domain length divided by the
cell count in each direction, exactly: `delr = Lx / ncol = 10` and
`delc = Ly / nrow = 20`. -/
theorem C3_cell_sizes :
    delr = Lx / ncol ∧ delc = Ly / nrow ∧ delr = 10 ∧ delc = 20 :=
  ⟨rfl, rfl, by norm_num [delr, Lx, ncol], by norm_num [delc, Ly, nrow]⟩

/-- Claim C4: on solver failure the script raises and halts (the failure
trace ends in the raise step, with no reading or plotting); on success no
raise occurs and execution continues to reading the result files.  The
branch is the only point where the two traces differ. -/
theorem C4_single_failure_branch :
    scriptTrace false =
      [Step.defineParams, Step.buildModel, Step.writeInput, Step.runModel,
       Step.raiseError] ∧
    Step.readResults ∉ scriptTrace false ∧
    Step.plotResults ∉ scriptTrace false ∧
    Step.raiseError ∉ scriptTrace true ∧
    Step.readResults ∈ scriptTrace true ∧
    (scriptTrace true).take 4 = (scriptTrace false).take 4 := by
  decide

set_option maxRecDepth 8000 in
/-- Claim C5: every array matches the grid dimensions: `ibound` and `strt`
have shape `(nlay, nrow, ncol)`, `botm` has length `nlay + 1`, and
`x_coord` and `y_coord` have lengths `ncol` and `nrow`. -/
theorem C5_array_shapes :
    ibound.length = nlay ∧
    ibound.map List.length = List.replicate nlay nrow ∧
    ibound.map (fun p => p.map List.length) =
      List.replicate nlay (List.replicate nrow ncol) ∧
    strt.length = nlay ∧
    strt.map List.length = List.replicate nlay nrow ∧
    strt.map (fun p => p.map List.length) =
      List.replicate nlay (List.replicate nrow ncol) ∧
    botm.length = nlay + 1 ∧
    x_coord.length = ncol ∧
    y_coord.length = nrow := by
  refine ⟨by decide, by decide, by decide, by decide, by decide, by decide,
    by decide, ?_, ?_⟩
  · rw [x_coord, linspace, List.length_map, List.length_range]
  · rw [y_coord, linspace, List.length_map, List.length_range]

/-- Claim C6: the script is one fixed linear sequence with no branching
other than the success check: on success the trace is exactly parameter
definition, model construction, input writing, the solver run, result
reading, plotting, in that order, and no step repeats in either trace. -/
theorem C6_linear_sequence :
    scriptTrace true =
      [Step.defineParams, Step.buildModel, Step.writeInput, Step.runModel,
       Step.readResults, Step.plotResults] ∧
    (scriptTrace true).Nodup ∧ (scriptTrace false).Nodup := by
  decide

/-- Claim C7: the external solver is invoked exactly once per run,
whichever way the success check goes; in particular on failure the run
step is never re-attempted. -/
theorem C7_solver_invoked_once :
    (scriptTrace true).count Step.runModel = 1 ∧
    (scriptTrace false).count Step.runModel = 1 := by
  decide

/-- Claim C8: the well cell indices are `r_well = 25` and `c_well = 50`;
they lie strictly inside the grid, the well column is neither the first
nor the last column, and the well cell's `ibound` value is 1 (active),
not a constant-head marker. -/
theorem C8_well_in_active_cell :
    r_well = 25 ∧ c_well = 50 ∧
    0 ≤ r_well ∧ r_well.toNat < nrow ∧
    0 ≤ c_well ∧ c_well.toNat < ncol ∧
    c_well ≠ 0 ∧ c_well ≠ (ncol : ℤ) - 1 ∧
    get3 ibound 0 r_well.toNat c_well.toNat 0 = 1 := by
  refine ⟨r_well_eq, c_well_eq, ?_, ?_, ?_, ?_, ?_, ?_, ?_⟩ <;>
    simp only [r_well_eq, c_well_eq] <;> decide

set_option maxRecDepth 8000 in
/-- Claim C9: the initial-head array `strt` is 100 at every cell, and in
particular every cell marked -1 in `ibound` (constant-head boundary)
starts at head 100. -/
theorem C9_initial_heads_uniform :
    ∀ l, l < nlay → ∀ r, r < nrow → ∀ c, c < ncol →
      get3 strt l r c 0 = 100 ∧
      (get3 ibound l r c 0 = -1 → get3 strt l r c 0 = 100) := by
  decide

/-- Witness for C9 at the constant-head corner cell (0,0,0), where
`ibound` is -1 and the initial head is 100. -/
theorem C9_initial_heads_witness :
    get3 strt 0 0 0 0 = 100 :=
  (C9_initial_heads_uniform 0 (by decide) 0 (by decide) 0 (by decide)).1

/-- Claim C10: `perlen`, `nstp`, and `steady` each have length
`nper = 2`, and the keys of `stress_period_data` are exactly
`{0, ..., nper - 1}`, with one well entry per period. -/
theorem C10_period_consistency :
    perlen.length = nper ∧ nstp.length = nper ∧ steady.length = nper ∧
    stress_period_data.map Prod.fst = List.range nper ∧
    stress_period_data.length = nper ∧
    stress_period_data.all (fun kv => kv.2.length == 1) = true :=
  ⟨rfl, rfl, rfl, by decide, rfl, rfl⟩

end SquareWithWell
